import Mathlib

/-!
Shallow embedding of `tsrc/flowResult.js`: the diagnostic data model, the
`difference` engine, the message planner (`prettyPrintError` and its helper
functions) and the renderer (`prettyPrintMessage`).

Modelling conventions:
* JS numbers that hold line/column/offset information are modelled as `Int`
  (the code does signed arithmetic like `column - 1`); `indent` is a `Nat`
  (the code only ever adds 2 to it and uses it as a repetition count).
* Optional / nullable JS fields (`?foo` and `foo?:`) are modelled as `Option`.
  The code never distinguishes `undefined` from `null` for these fields
  (it only uses `x != null` style checks and truthiness), so a single
  `Option` layer is faithful.
* `FlowError.message` is non-empty by the documented precondition; the JS
  expression `message[0].loc` crashes on an empty `message`, which the spec
  declares a precondition violation, so the model reads it with `head?`.
* The `extra` forest (`FlowExtra = Array<{message, children}>`) is modelled by
  the inductive `FlowExtraList`, whose `cons` cell carries one array element's
  `message` and `children` plus the rest of the array.  The code treats a
  `null` `children` and an empty-array `children` identically (both contribute
  no messages: `current.children == null ? [] : getExtraMessages(children)`
  and `getExtraMessages([])` both give `[]`), so both are `FlowExtraList.nil`.
* In-place mutation in the JS (`prev.descr = ...`, `message.indent = ...`)
  always happens on a freshly deep-copied structure; the pure model returns
  the updated values instead.
-/

inductive MsgType : Type where
  | Blame : MsgType
  | Comment : MsgType
deriving DecidableEq

inductive LocType : Type where
  | LibFile : LocType
  | SourceFile : LocType
  | JsonFile : LocType
  | Builtin : LocType
deriving DecidableEq

structure FlowPos where
  line : Int
  column : Int
  offset : Int
deriving DecidableEq

structure FlowLoc where
  source : Option String
  type : Option LocType
  start : FlowPos
  stop : FlowPos
deriving DecidableEq

structure FlowMessage where
  descr : String
  type : MsgType
  context : Option String
  loc : Option FlowLoc
  indent : Option Nat
deriving DecidableEq

inductive FlowExtraList : Type where
  | nil : FlowExtraList
  | cons (message : List FlowMessage) (children : FlowExtraList)
      (rest : FlowExtraList) : FlowExtraList
deriving DecidableEq

structure FlowError where
  kind : String
  level : String
  message : List FlowMessage
  trace : Option (List FlowMessage)
  operation : Option FlowMessage
  extra : Option FlowExtraList
deriving DecidableEq

structure FlowResult where
  passed : Bool
  errors : List FlowError
  flowVersion : String
deriving DecidableEq

def noErrors : FlowResult :=
  { passed := true, errors := [], flowVersion := "No version" }

/-!
JSON serialization of a `message` array, embedding `JSON.stringify(error.message)`
from `difference`.  Key order follows the field declaration order and absent
optional fields are omitted, exactly like `JSON.stringify` on records built
with those fields present; within this model every message array has one
canonical serialization, and two message arrays serialize equally iff the JS
strings would be equal, which is all `difference` observes.
-/

def hexDigit (n : Nat) : String :=
  String.singleton (Char.ofNat (if n < 10 then 48 + n else 87 + n))

def jsonEscapeChar (c : Char) : String :=
  if c = '"' then "\\\""
  else if c = '\\' then "\\\\"
  else if c = '\n' then "\\n"
  else if c = '\t' then "\\t"
  else if c = '\r' then "\\r"
  else if c.toNat < 32 then "\\u00" ++ hexDigit (c.toNat / 16) ++ hexDigit (c.toNat % 16)
  else String.singleton c

def jsonString (s : String) : String :=
  "\"" ++ String.join (s.data.map jsonEscapeChar) ++ "\""

def jsonPos (p : FlowPos) : String :=
  "\x7b\"line\":" ++ toString p.line ++ ",\"column\":" ++ toString p.column
    ++ ",\"offset\":" ++ toString p.offset ++ "\x7d"

def locTypeName : LocType → String
  | LocType.LibFile => "LibFile"
  | LocType.SourceFile => "SourceFile"
  | LocType.JsonFile => "JsonFile"
  | LocType.Builtin => "Builtin"

def jsonLoc (l : FlowLoc) : String :=
  "\x7b\"source\":"
    ++ (match l.source with
        | some s => jsonString s
        | none => "null")
    ++ ",\"type\":"
    ++ (match l.type with
        | some t => jsonString (locTypeName t)
        | none => "null")
    ++ ",\"start\":" ++ jsonPos l.start
    ++ ",\"end\":" ++ jsonPos l.stop
    ++ "\x7d"

def msgTypeName : MsgType → String
  | MsgType.Blame => "Blame"
  | MsgType.Comment => "Comment"

def jsonMessage (m : FlowMessage) : String :=
  "\x7b\"descr\":" ++ jsonString m.descr
    ++ ",\"type\":" ++ jsonString (msgTypeName m.type)
    ++ (match m.context with
        | some c => ",\"context\":" ++ jsonString c
        | none => "")
    ++ (match m.loc with
        | some l => ",\"loc\":" ++ jsonLoc l
        | none => "")
    ++ (match m.indent with
        | some i => ",\"indent\":" ++ toString i
        | none => "")
    ++ "\x7d"

def serializeMessages (message : List FlowMessage) : String :=
  "[" ++ String.intercalate "," (message.map jsonMessage) ++ "]"

/-- Embeds the membership test of `difference`: an error of `a` is kept iff
the hash table built from `b.errors` (keyed by `JSON.stringify(error.message)`)
has no entry for its own message serialization.  Every key starts with `[`,
so the JS object-prototype properties can never collide with a key. -/
def keepInDiff (b : FlowResult) (e : FlowError) : Bool :=
  !((b.errors.map fun e2 => serializeMessages e2.message).contains
      (serializeMessages e.message))

/-- Embeds `difference(a, b)` (flowResult.js:48-67).  `JSON.parse(JSON.stringify(error))`
is a deep copy and is the identity on values. -/
def difference (a b : FlowResult) : FlowResult :=
  let errors := a.errors.filter (keepInDiff b)
  { passed := errors.length == 0
    errors := errors
    flowVersion := a.flowVersion }

theorem keepInDiff_iff (b : FlowResult) (e : FlowError) :
    keepInDiff b e = true ↔ ∀ e2 ∈ b.errors,
      serializeMessages e2.message ≠ serializeMessages e.message := by
  simp only [keepInDiff, Bool.not_eq_true', ← Bool.not_eq_true,
    List.contains_iff_exists_mem_beq, List.mem_map, beq_iff_eq]
  push_neg
  constructor
  · intro h e2 h2
    exact fun heq => h _ ⟨e2, h2, rfl⟩ heq.symm
  · rintro h s ⟨e2, h2, rfl⟩
    exact fun heq => h e2 h2 heq.symm

/-- C1: `difference(current, baseline)` keeps, in order, exactly the errors of
`current` whose canonical message serialization matches no baseline error;
kind/level/operation/trace/extra never influence the test; `passed` is true iff
the surviving error list is empty; `flowVersion` is copied from `current`. -/
theorem difference_spec (a b : FlowResult) :
    (difference a b).errors = a.errors.filter (keepInDiff b)
    ∧ List.Sublist (difference a b).errors a.errors
    ∧ (∀ e : FlowError, e ∈ (difference a b).errors ↔
        e ∈ a.errors ∧ ∀ e2 ∈ b.errors,
          serializeMessages e2.message ≠ serializeMessages e.message)
    ∧ ((difference a b).passed = true ↔ (difference a b).errors = [])
    ∧ (difference a b).flowVersion = a.flowVersion
    ∧ (∀ e1 e2 : FlowError, e1.message = e2.message →
        keepInDiff b e1 = keepInDiff b e2) := by
  refine ⟨rfl, List.filter_sublist _, ?_, ?_, rfl, ?_⟩
  · intro e
    show e ∈ a.errors.filter (keepInDiff b) ↔ _
    rw [List.mem_filter, keepInDiff_iff]
  · show ((a.errors.filter (keepInDiff b)).length == 0) = true ↔
      (a.errors.filter (keepInDiff b)) = []
    rw [beq_iff_eq, List.length_eq_zero]
  · intro e1 e2 h
    unfold keepInDiff
    rw [h]

/-- Witness for C1: instantiates `difference_spec` on concrete reports and
discharges the `e1.message = e2.message` hypothesis, showing that two errors
differing only in `kind` are treated identically by the difference test. -/
theorem difference_spec_witness :
    keepInDiff
      { passed := false
        errors := [{ kind := "infer", level := "error",
                     message := [{ descr := "x", type := MsgType.Blame,
                                   context := none, loc := none, indent := none }],
                     trace := none, operation := none, extra := none }]
        flowVersion := "0.1" }
      { kind := "infer", level := "error",
        message := [{ descr := "x", type := MsgType.Blame,
                      context := none, loc := none, indent := none }],
        trace := none, operation := none, extra := none }
    = keepInDiff
      { passed := false
        errors := [{ kind := "infer", level := "error",
                     message := [{ descr := "x", type := MsgType.Blame,
                                   context := none, loc := none, indent := none }],
                     trace := none, operation := none, extra := none }]
        flowVersion := "0.1" }
      { kind := "parse", level := "error",
        message := [{ descr := "x", type := MsgType.Blame,
                      context := none, loc := none, indent := none }],
        trace := none, operation := none, extra := none } :=
  (difference_spec noErrors
    { passed := false
      errors := [{ kind := "infer", level := "error",
                   message := [{ descr := "x", type := MsgType.Blame,
                                 context := none, loc := none, indent := none }],
                   trace := none, operation := none, extra := none }]
      flowVersion := "0.1" }).2.2.2.2.2
    { kind := "infer", level := "error",
      message := [{ descr := "x", type := MsgType.Blame,
                    context := none, loc := none, indent := none }],
      trace := none, operation := none, extra := none }
    { kind := "parse", level := "error",
      message := [{ descr := "x", type := MsgType.Blame,
                    context := none, loc := none, indent := none }],
      trace := none, operation := none, extra := none }
    rfl

/-!
The message planner (flowResult.js:88-187): `prettyPrintError` concatenates
header, kind classification, operation reason, the primary message, flattened
extra messages and trace reasons, then merges location-less comments into the
preceding unit.
-/

/-- Embeds `mkComment` (flowResult.js:114-116): `\x7b descr, type: "Comment" \x7d`. -/
def mkComment (descr : String) : FlowMessage :=
  { descr := descr, type := MsgType.Comment, context := none, loc := none,
    indent := none }

/-- Embeds `getHeader` (flowResult.js:118-129).  Defaults are `line = -1` and
`filename = "[No file]"`; a non-null `mainLoc` overrides `line` with
`start.line` and, when its `source` is non-null, `filename` with it. -/
def getHeader (mainLoc : Option FlowLoc) : List FlowMessage :=
  match mainLoc with
  | none => [mkComment ("[No file]:" ++ toString (-1 : Int))]
  | some l =>
      let filename := match l.source with
        | some s => s
        | none => "[No file]"
      [mkComment (filename ++ ":" ++ toString l.start.line)]

/-- Embeds `getKindMessage` (flowResult.js:131-155). -/
def getKindMessage (kind level : String) (message : List FlowMessage) :
    List FlowMessage :=
  match message with
  | [] => []
  | m0 :: _ =>
      let descr : Option String :=
        if kind = "internal" ∧ level = "error" then
          some "Internal error (see logs): "
        else match m0.loc with
          | some loc =>
              if loc.type = some LocType.LibFile then
                if kind = "parse" ∧ level = "error" then
                  some "Library parse error:"
                else if kind = "infer" then
                  some "Library type error:"
                else none
              else none
          | none => none
      match descr with
      | some d => [{ descr := d, type := MsgType.Blame, context := m0.context,
                     loc := m0.loc, indent := none }]
      | none => []

/-- Embeds `getOpReason` (flowResult.js:157-165). -/
def getOpReason (op : Option FlowMessage) : List FlowMessage :=
  match op with
  | some o => [o, mkComment "Error:"]
  | none => []

/-- Embeds the `(message.indent || 0) + 2` in-place update of
`getExtraMessages` (flowResult.js:176) as a pure record update. -/
def addExtraIndent (m : FlowMessage) : FlowMessage :=
  { m with indent := some (m.indent.getD 0 + 2) }

/-- Embeds the `extra.reduce` flattening inside `getExtraMessages`
(flowResult.js:169-175): each array element contributes its `message` units
followed by the recursively flattened (and per-level indented) units of its
`children`. -/
def getExtraFlatten : FlowExtraList → List FlowMessage
  | FlowExtraList.nil => []
  | FlowExtraList.cons message children rest =>
      (message ++ (getExtraFlatten children).map addExtraIndent)
        ++ getExtraFlatten rest

/-- Embeds `getExtraMessages` (flowResult.js:167-180): flatten the forest,
then add 2 to the indent of every produced unit (nested levels accumulate +2
per level through the recursive calls). -/
def getExtraMessages (extra : Option FlowExtraList) : List FlowMessage :=
  match extra with
  | none => []
  | some items => (getExtraFlatten items).map addExtraIndent

/-- Embeds `getTraceReasons` (flowResult.js:182-187).  Note the unit carries
`type: "Blame"` in the source. -/
def getTraceReasons (trace : Option (List FlowMessage)) : List FlowMessage :=
  match trace with
  | some t =>
      if t.length > 0 then
        { descr := "Trace:", type := MsgType.Blame, context := none,
          loc := none, indent := none } :: t
      else []
  | none => []

/-- Embeds `operation && operation.loc || message[0].loc` (flowResult.js:90):
the operation's location when the operation is present and its location is
non-null, else `message[0]`'s location (`none` for an empty `message`, which
is a documented precondition violation in the source). -/
def mainLocOf (error : FlowError) : Option FlowLoc :=
  match error.operation with
  | some op =>
      match op.loc with
      | some l => some l
      | none => error.message.head?.bind FlowMessage.loc
  | none => error.message.head?.bind FlowMessage.loc

/-- Embeds `mainLoc && mainLoc.source || "[No file]"` (flowResult.js:99).
JS truthiness makes an empty-string source fall back to `"[No file]"` too. -/
def mainFileOf (mainLoc : Option FlowLoc) : String :=
  match mainLoc with
  | some l =>
      match l.source with
      | some s => if s = "" then "[No file]" else s
      | none => "[No file]"
  | none => "[No file]"

/-- Embeds one step of the `messages.reduce` merge pass
(flowResult.js:101-110).  The in-place `prev.descr = ...` update becomes a
functional update of the last element of the accumulator. -/
def mergeStep (acc : List FlowMessage) (m : FlowMessage) : List FlowMessage :=
  if m.loc ≠ none ∨ acc = [] ∨ m.type = MsgType.Blame then
    acc ++ [m]
  else if m.descr ≠ "Error:" then
    match acc.getLast? with
    | some prev =>
        acc.dropLast
          ++ [{ prev with
                descr := if prev.descr = "" then m.descr
                         else prev.descr ++ ". " ++ m.descr }]
    | none => acc
  else acc

/-- Embeds the `[].concat(...)` construction of `messages`
(flowResult.js:91-98). -/
def plannedMessages (error : FlowError) : List FlowMessage :=
  getHeader (mainLocOf error)
    ++ getKindMessage error.kind error.level error.message
    ++ getOpReason error.operation
    ++ error.message
    ++ getExtraMessages error.extra
    ++ getTraceReasons error.trace

/-- Embeds the full merge pass `messages.reduce(..., [])`
(flowResult.js:101-110). -/
def mergedMessages (error : FlowError) : List FlowMessage :=
  (plannedMessages error).foldl mergeStep []

/-!
The renderer (flowResult.js:189-227): `prettyPrintMessage` and the local
strings it computes, each embedded as its own definition.
-/

/-- Embeds `Array(n+1).join(" ")`: a string of `n` spaces. -/
def spacesOf (n : Nat) : String := String.mk (List.replicate n ' ')

/-- Embeds the indentation prefix `Array((indent || 0)+1).join(" ")`
(flowResult.js:193). -/
def indentationOf (indent : Option Nat) : String := spacesOf (indent.getD 0)

/-- Embeds the line label of flowResult.js:198-202: `String(loc.start.line)`
right-justified to width 3 via `("   "+lineStr).slice(-3)`, then `": "`. -/
def lineStrOf (line : Int) : String :=
  let lineStr := toString line
  let lineStr := if lineStr.length < 3 then
      ("   " ++ lineStr).drop (("   " ++ lineStr).length - 3)
    else lineStr
  lineStr ++ ": "

/-- Embeds `.replace(/[^\t ]/g, " ")` (flowResult.js:205): every character
other than tab and space becomes a space. -/
def maskContext (s : String) : String :=
  String.mk (s.data.map (fun c => if c = '\t' ∨ c = ' ' then c else ' '))

/-- Embeds the padding of flowResult.js:203-206: label-length spaces plus,
when `context.length > startCol` (strictly), the masked first `startCol`
characters of the context (`substr(0, startCol)` is empty for a non-positive
`startCol`, hence `Int.toNat`). -/
def mkPadding (lineStr context : String) (startCol : Int) : String :=
  spacesOf lineStr.length
    ++ (if (context.length : Int) > startCol then
          maskContext (context.take startCol.toNat)
        else "")

/-- Embeds `underline_size` (flowResult.js:207-209) with
`startCol = loc.start.column - 1`. -/
def underline_size (loc : FlowLoc) : Int :=
  if loc.start.line = loc.stop.line then
    max 1 (loc.stop.column - (loc.start.column - 1))
  else 1

/-- Embeds `Array(underline_size+1).join("^")` (flowResult.js:210). -/
def underlineOf (loc : FlowLoc) : String :=
  String.mk (List.replicate (underline_size loc).toNat '^')

/-- Embeds `loc.source == mainFile` (flowResult.js:221): a null source never
equals the (string) main file in JS. -/
def sourceEqMainFile (source : Option String) (mainFile : String) : Bool :=
  match source with
  | some s => s == mainFile
  | none => false

/-- Embeds `format("%s", loc.source)`: `util.format` prints null as "null". -/
def sourceStr (source : Option String) : String :=
  match source with
  | some s => s
  | none => "null"

/-- Embeds `prettyPrintMessage` (flowResult.js:189-227). -/
def prettyPrintMessage (mainFile : String) (msg : FlowMessage) : String :=
  let indentation := indentationOf msg.indent
  match msg.loc with
  | some loc =>
      let startCol := loc.start.column - 1
      let contextStr :=
        match msg.context with
        | some context =>
            let lineStr := lineStrOf loc.start.line
            let padding := mkPadding lineStr context startCol
            let underline := underlineOf loc
            indentation ++ lineStr ++ context ++ "\n"
              ++ indentation ++ padding ++ underline ++ " "
        | none => indentation
      let see_another_file :=
        if sourceEqMainFile loc.source mainFile then ""
        else ". See: " ++ sourceStr loc.source ++ ":" ++ toString loc.start.line
      contextStr ++ msg.descr ++ see_another_file
  | none => indentation ++ msg.descr

/-- Embeds `prettyPrintError` (flowResult.js:88-112). -/
def prettyPrintError (error : FlowError) : String :=
  String.intercalate "\n"
    ((mergedMessages error).map
      (prettyPrintMessage (mainFileOf (mainLocOf error))))

/-- Embeds `prettyPrint` (flowResult.js:82-86); the initial
`JSON.parse(JSON.stringify(result))` deep copy is the identity on values. -/
def prettyPrint (result : FlowResult) : String :=
  String.intercalate "\n\n" (result.errors.map prettyPrintError)

/-- Embeds `prettyPrintWithHeader` (flowResult.js:69-80). -/
def prettyPrintWithHeader (result : FlowResult) : String :=
  if result.passed then "No errors"
  else
    toString result.errors.length ++ " error"
      ++ (if result.errors.length = 1 then "" else "s")
      ++ "\n" ++ prettyPrint result

/-- C2: the merge pass is the left-to-right fold of `mergeStep` from the empty
output; a unit with a non-null location, or arriving on an empty output, or of
Blame type is appended unchanged; a location-less comment with text other than
"Error:" is joined into the previous output unit's text (with ". " when that
text is non-empty, plain otherwise); a location-less comment reading exactly
"Error:" is dropped silently. -/
theorem mergeStep_spec :
    (∀ (acc : List FlowMessage) (m : FlowMessage),
        m.loc ≠ none ∨ acc = [] ∨ m.type = MsgType.Blame →
        mergeStep acc m = acc ++ [m])
    ∧ (∀ (ys : List FlowMessage) (prev m : FlowMessage),
        m.loc = none → m.type = MsgType.Comment → m.descr ≠ "Error:" →
        mergeStep (ys ++ [prev]) m =
          ys ++ [{ prev with
                   descr := if prev.descr = "" then m.descr
                            else prev.descr ++ ". " ++ m.descr }])
    ∧ (∀ (ys : List FlowMessage) (prev m : FlowMessage),
        m.loc = none → m.type = MsgType.Comment → m.descr = "Error:" →
        mergeStep (ys ++ [prev]) m = ys ++ [prev])
    ∧ (∀ error : FlowError,
        mergedMessages error = (plannedMessages error).foldl mergeStep []) := by
  refine ⟨?_, ?_, ?_, fun _ => rfl⟩
  · intro acc m h
    unfold mergeStep
    rw [if_pos h]
  · intro ys prev m hloc htype hdescr
    have hcond : ¬(m.loc ≠ none ∨ ys ++ [prev] = [] ∨ m.type = MsgType.Blame) := by
      simp [hloc, htype]
    unfold mergeStep
    rw [if_neg hcond, if_pos hdescr]
    simp [List.getLast?_concat, List.dropLast_concat]
  · intro ys prev m hloc htype hdescr
    have hcond : ¬(m.loc ≠ none ∨ ys ++ [prev] = [] ∨ m.type = MsgType.Blame) := by
      simp [hloc, htype]
    unfold mergeStep
    rw [if_neg hcond, if_neg (by simp [hdescr])]

/-- Witness for C2: applies `mergeStep_spec` to a concrete header unit and a
concrete location-less comment, discharging the hypotheses; the comment's text
is joined onto the header with ". ". -/
theorem mergeStep_spec_witness :
    mergeStep ([] ++ [mkComment "a.js:3"]) (mkComment "note") =
      [] ++ [{ mkComment "a.js:3" with
               descr := if (mkComment "a.js:3").descr = "" then
                          (mkComment "note").descr
                        else (mkComment "a.js:3").descr ++ ". "
                          ++ (mkComment "note").descr }] :=
  mergeStep_spec.2.1 [] (mkComment "a.js:3") (mkComment "note") rfl rfl
    (by decide)

/-- Counterexample for C3: for a concrete non-empty trace, the unit prepended
by `getTraceReasons` is not of Comment type (the source builds it with
`type: "Blame"`). -/
theorem getTraceReasons_not_comment :
    ¬((getTraceReasons (some [mkComment "t"])).head?.map FlowMessage.type
        = some MsgType.Comment) := by
  decide

/-- C3 (amended): for a present non-empty trace, `getTraceReasons` prepends a
location-less Blame unit with text "Trace:" to the trace sequence, which is
kept verbatim and in order; for an absent or empty trace it returns nothing. -/
theorem getTraceReasons_spec :
    (∀ (trace : Option (List FlowMessage)) (t : List FlowMessage),
        trace = some t → t ≠ [] →
        getTraceReasons trace =
          { descr := "Trace:", type := MsgType.Blame, context := none,
            loc := none, indent := none } :: t)
    ∧ (∀ trace : Option (List FlowMessage),
        trace = none ∨ trace = some [] → getTraceReasons trace = []) := by
  constructor
  · rintro _ t rfl ht
    simp [getTraceReasons, List.length_pos.mpr ht]
  · rintro _ (rfl | rfl) <;> rfl

/-- Witness for C3: applies `getTraceReasons_spec` to a concrete one-element
trace, discharging both hypotheses. -/
theorem getTraceReasons_spec_witness :
    getTraceReasons (some [mkComment "t"]) =
      { descr := "Trace:", type := MsgType.Blame, context := none,
        loc := none, indent := none } :: [mkComment "t"] :=
  getTraceReasons_spec.1 (some [mkComment "t"]) [mkComment "t"] rfl (by decide)

/-- Every unit after the first one in a merge-pass accumulator either carries
a location or is of Blame type. -/
def tailLocOrBlame (l : List FlowMessage) : Prop :=
  ∀ m ∈ l.tail, m.loc ≠ none ∨ m.type = MsgType.Blame

theorem mergeStep_tailLocOrBlame (acc : List FlowMessage) (m : FlowMessage)
    (h : tailLocOrBlame acc) : tailLocOrBlame (mergeStep acc m) := by
  intro x hx
  unfold mergeStep at hx
  by_cases h1 : m.loc ≠ none ∨ acc = [] ∨ m.type = MsgType.Blame
  · rw [if_pos h1] at hx
    match acc, hx with
    | [], hx =>
        simp at hx
    | a :: as, hx =>
        rw [List.cons_append, List.tail_cons] at hx
        rcases List.mem_append.mp hx with hmem | hmem
        · exact h x hmem
        · rcases List.mem_singleton.mp hmem with rfl
          rcases h1 with h1 | h1 | h1
          · exact Or.inl h1
          · exact absurd h1 (List.cons_ne_nil a as)
          · exact Or.inr h1
  · rw [if_neg h1] at hx
    push_neg at h1
    obtain ⟨hloc, hne, _⟩ := h1
    by_cases h2 : m.descr ≠ "Error:"
    · rw [if_pos h2] at hx
      rcases List.eq_nil_or_concat' acc with rfl | ⟨ys, prev, rfl⟩
      · exact absurd rfl hne
      · simp only [List.getLast?_concat, List.dropLast_concat] at hx
        match ys, hx with
        | [], hx =>
            simp at hx
        | a :: as, hx =>
            rw [List.cons_append, List.tail_cons] at hx
            rcases List.mem_append.mp hx with hmem | hmem
            · exact h x (by
                rw [List.cons_append, List.tail_cons]
                exact List.mem_append_left _ hmem)
            · rcases List.mem_singleton.mp hmem with rfl
              have hprev : prev.loc ≠ none ∨ prev.type = MsgType.Blame := by
                refine h prev ?_
                rw [List.cons_append, List.tail_cons]
                exact List.mem_append_right _ (List.mem_singleton.mpr rfl)
              exact hprev
    · rw [if_neg h2] at hx
      exact h x hx

theorem foldl_mergeStep_tailLocOrBlame (msgs acc : List FlowMessage)
    (h : tailLocOrBlame acc) : tailLocOrBlame (msgs.foldl mergeStep acc) := by
  induction msgs generalizing acc with
  | nil => exact h
  | cons m rest ih => exact ih _ (mergeStep_tailLocOrBlame acc m h)

/-- Concrete location-less Blame unit used by the C6 analysis. -/
def blameNoLocA : FlowMessage :=
  { descr := "A", type := MsgType.Blame, context := none, loc := none,
    indent := none }

/-- Concrete location-less Blame unit used by the C6 analysis. -/
def blameNoLocB : FlowMessage :=
  { descr := "B", type := MsgType.Blame, context := none, loc := none,
    indent := none }

/-- Concrete error whose primary message is two location-less Blame units. -/
def twoBlameError : FlowError :=
  { kind := "infer", level := "error", message := [blameNoLocA, blameNoLocB],
    trace := none, operation := none, extra := none }

/-- Counterexample for C6: for `twoBlameError` the merged sequence is
`[header, blame "A", blame "B"]`, and its second and third units both lack a
location although the second unit is not the very first unit of the whole
sequence; the claimed invariant fails at this input. -/
theorem merged_consecutive_locless_exists :
    ¬(∀ (l1 l2 : List FlowMessage) (x y : FlowMessage),
        mergedMessages twoBlameError = l1 ++ x :: y :: l2 → l1 ≠ [] →
        ¬(x.loc = none ∧ y.loc = none)) := by
  intro hclaim
  exact hclaim [mkComment "[No file]:-1"] [] blameNoLocA blameNoLocB
    (by decide) (by decide) ⟨rfl, rfl⟩

/-- C6 (amended): in the merged unit sequence of any error, whenever two
consecutive units both lack a location, either the first of the pair is the
very first unit of the whole sequence or the second of the pair is of Blame
(anchored) type — equivalently, a location-less Comment unit never survives
anywhere after the first position. -/
theorem merged_no_consecutive_locless (e : FlowError)
    (l1 l2 : List FlowMessage) (x y : FlowMessage)
    (h : mergedMessages e = l1 ++ x :: y :: l2) (hne : l1 ≠ []) :
    x.loc ≠ none ∨ y.loc ≠ none ∨ y.type = MsgType.Blame := by
  have hy : y ∈ (mergedMessages e).tail := by
    match l1, hne with
    | a :: as, _ =>
        rw [h, List.cons_append, List.tail_cons]
        exact List.mem_append_right _ (by simp)
  have htail : tailLocOrBlame (mergedMessages e) :=
    foldl_mergeStep_tailLocOrBlame (plannedMessages e) [] (by
      intro m hm
      simp at hm)
  rcases htail y hy with hy' | hy'
  · exact Or.inr (Or.inl hy')
  · exact Or.inr (Or.inr hy')

/-- Witness for C6: applies `merged_no_consecutive_locless` to the concrete
merged sequence `[header, blame "A", blame "B"]`, discharging the
decomposition hypotheses; the conclusion holds through the Blame disjunct. -/
theorem merged_no_consecutive_locless_witness :
    blameNoLocA.loc ≠ none ∨ blameNoLocB.loc ≠ none
    ∨ blameNoLocB.type = MsgType.Blame :=
  merged_no_consecutive_locless twoBlameError [mkComment "[No file]:-1"] []
    blameNoLocA blameNoLocB (by decide) (by decide)

/-- C7: `prettyPrintWithHeader` returns exactly "No errors" for a passed
report; otherwise it returns the count line `"<N> error"` (singular when N is
exactly 1, `"<N> errors"` otherwise) followed by a newline and the full
`prettyPrint` rendering of the report. -/
theorem prettyPrintWithHeader_spec (result : FlowResult) :
    (result.passed = true → prettyPrintWithHeader result = "No errors")
    ∧ (result.passed = false →
        prettyPrintWithHeader result =
          toString result.errors.length ++ " error"
            ++ (if result.errors.length = 1 then "" else "s")
            ++ "\n" ++ prettyPrint result) := by
  constructor
  · intro h
    simp [prettyPrintWithHeader, h]
  · intro h
    simp [prettyPrintWithHeader, h]

/-- Witness for C7: applies `prettyPrintWithHeader_spec` to the passed report
`noErrors`, discharging the `passed = true` hypothesis. -/
theorem prettyPrintWithHeader_spec_witness :
    prettyPrintWithHeader noErrors = "No errors" :=
  (prettyPrintWithHeader_spec noErrors).1 rfl

/-- C10: when an operation is present but carries a null location, the main
location falls back to `message[0]`'s location, and the header and main file
are computed exactly as if no operation were present. -/
theorem mainLoc_operation_fallback (e : FlowError) (op : FlowMessage)
    (h1 : e.operation = some op) (h2 : op.loc = none) :
    mainLocOf e = e.message.head?.bind FlowMessage.loc
    ∧ mainLocOf e = mainLocOf { e with operation := none }
    ∧ getHeader (mainLocOf e) = getHeader (mainLocOf { e with operation := none })
    ∧ mainFileOf (mainLocOf e) = mainFileOf (mainLocOf { e with operation := none }) := by
  have hmain : mainLocOf e = e.message.head?.bind FlowMessage.loc := by
    simp [mainLocOf, h1, h2]
  have hnone : mainLocOf { e with operation := none }
      = e.message.head?.bind FlowMessage.loc := rfl
  exact ⟨hmain, by rw [hmain, hnone], by rw [hmain, hnone], by rw [hmain, hnone]⟩

/-- Concrete located message for the C10 witness. -/
def locatedMsg : FlowMessage :=
  { descr := "bad", type := MsgType.Blame, context := none,
    loc := some { source := some "b.js", type := none,
                  start := { line := 5, column := 2, offset := 10 },
                  stop := { line := 5, column := 6, offset := 14 } },
    indent := none }

/-- Concrete error with a location-less operation for the C10 witness. -/
def opNoLocError : FlowError :=
  { kind := "infer", level := "error", message := [locatedMsg],
    trace := none, operation := some (mkComment "calling"), extra := none }

/-- Witness for C10: applies `mainLoc_operation_fallback` to a concrete error
whose operation has no location, discharging both hypotheses. -/
theorem mainLoc_operation_fallback_witness :
    mainFileOf (mainLocOf opNoLocError)
      = mainFileOf (mainLocOf { opNoLocError with operation := none }) :=
  (mainLoc_operation_fallback opNoLocError (mkComment "calling") rfl
    rfl).2.2.2

theorem underlineOf_length (loc : FlowLoc) :
    (underlineOf loc).length = (underline_size loc).toNat := by
  show (List.replicate (underline_size loc).toNat '^').length = _
  exact List.length_replicate _ _

theorem one_le_underline_size (loc : FlowLoc) : 1 ≤ underline_size loc := by
  unfold underline_size
  split
  · exact le_max_left 1 _
  · exact le_refl 1

/-- For a unit carrying both a location and a context line, the rendered
string is the context line, a newline, then padding, underline, one space and
the unit's text with its cross-file suffix (flowResult.js:196-224). -/
theorem prettyPrintMessage_with_context (mainFile : String) (m : FlowMessage)
    (loc : FlowLoc) (c : String) (hl : m.loc = some loc)
    (hc : m.context = some c) :
    prettyPrintMessage mainFile m =
      indentationOf m.indent ++ lineStrOf loc.start.line ++ c ++ "\n"
        ++ indentationOf m.indent
        ++ mkPadding (lineStrOf loc.start.line) c (loc.start.column - 1)
        ++ underlineOf loc ++ " " ++ m.descr
        ++ (if sourceEqMainFile loc.source mainFile then ""
            else ". See: " ++ sourceStr loc.source ++ ":"
              ++ toString loc.start.line) := by
  obtain ⟨d, ty, ctx, l, ind⟩ := m
  obtain rfl : l = some loc := hl
  obtain rfl : ctx = some c := hc
  rfl

/-- C4: for a rendered unit with a location and a context line, the underline
is all carets; its length is `max 1 (end.column - (start.column - 1))` when
the span is on one line and exactly 1 otherwise, and it is at least 1 even
for locations violating the `start ≤ end` ordering (the `max 1` degenerate
case), so the rendering is always defined. -/
theorem prettyPrintMessage_underline (mainFile : String) (m : FlowMessage)
    (loc : FlowLoc) (c : String) (hl : m.loc = some loc)
    (hc : m.context = some c) :
    (loc.start.line = loc.stop.line →
        ((underlineOf loc).length : Int)
          = max 1 (loc.stop.column - (loc.start.column - 1)))
    ∧ (loc.start.line ≠ loc.stop.line → (underlineOf loc).length = 1)
    ∧ (∀ ch ∈ (underlineOf loc).data, ch = '^')
    ∧ 1 ≤ (underlineOf loc).length
    ∧ prettyPrintMessage mainFile m =
        indentationOf m.indent ++ lineStrOf loc.start.line ++ c ++ "\n"
          ++ indentationOf m.indent
          ++ mkPadding (lineStrOf loc.start.line) c (loc.start.column - 1)
          ++ underlineOf loc ++ " " ++ m.descr
          ++ (if sourceEqMainFile loc.source mainFile then ""
              else ". See: " ++ sourceStr loc.source ++ ":"
                ++ toString loc.start.line) := by
  refine ⟨?_, ?_, ?_, ?_, prettyPrintMessage_with_context mainFile m loc c hl hc⟩
  · intro h
    rw [underlineOf_length, underline_size, if_pos h]
    exact Int.toNat_of_nonneg
      (le_trans zero_le_one (le_max_left 1 _))
  · intro h
    rw [underlineOf_length, underline_size, if_neg h]
    rfl
  · intro ch hch
    exact List.eq_of_mem_replicate hch
  · rw [underlineOf_length]
    calc 1 = (1 : Int).toNat := rfl
      _ ≤ (underline_size loc).toNat :=
        Int.toNat_le_toNat (one_le_underline_size loc)

/-- Concrete location of the worked example in the specification. -/
def exampleLoc : FlowLoc :=
  { source := some "a.js", type := none,
    start := { line := 3, column := 1, offset := 0 },
    stop := { line := 3, column := 4, offset := 3 } }

/-- Concrete primary message of the worked example. -/
def exampleMsg : FlowMessage :=
  { descr := "Cannot call function", type := MsgType.Blame,
    context := some "foo();", loc := some exampleLoc, indent := none }

/-- Concrete error of the worked example: kind "infer", level "error", no
operation, trace or extra. -/
def exampleError : FlowError :=
  { kind := "infer", level := "error", message := [exampleMsg],
    trace := none, operation := none, extra := none }

/-- Witness for C4: applies `prettyPrintMessage_underline` to the example
unit, discharging both hypotheses; the underline is non-empty. -/
theorem prettyPrintMessage_underline_witness :
    1 ≤ (underlineOf exampleLoc).length :=
  (prettyPrintMessage_underline "a.js" exampleMsg exampleLoc "foo();" rfl
    rfl).2.2.2.1

/-- Counterexample for C5: on the spec's worked example the rendered block is
not header, context line and a 3-caret underline followed by the text; the
code computes `max(1, end.column - (start.column - 1)) = max(1, 4 - 0) = 4`
carets, not 3. -/
theorem exampleError_not_three_carets :
    ¬(prettyPrintError exampleError
        = "a.js:3\n  3: foo();\n     ^^^ Cannot call function") := by
  decide

/-- C5 (amended): the example error renders as the header line "a.js:3", the
context line "  3: foo();", and an underline line with exactly 4 carets
starting under "foo" (covering "foo("), followed by the text
"Cannot call function". -/
theorem exampleError_render :
    prettyPrintError exampleError
      = "a.js:3\n  3: foo();\n     ^^^^ Cannot call function" := by
  decide

/-- Counterexample for C8: for a concrete unit whose context ("ab") is exactly
`startCol` (= 2) characters long, the rendered underline line is padded only
with the label-length spaces; the claim's "at least `startCol` characters"
reading would add two more masked characters of padding. -/
theorem prettyPrintMessage_padding_short_context :
    ¬(prettyPrintMessage "a.js"
        { descr := "oops", type := MsgType.Blame, context := some "ab",
          loc := some { source := some "a.js", type := none,
                        start := { line := 1, column := 3, offset := 2 },
                        stop := { line := 1, column := 3, offset := 2 } },
          indent := none }
        = "  1: ab\n       ^ oops") := by
  decide

/-- C8 (amended): the padding before the underline is the label-length spaces
plus, when the context is strictly longer than `startCol` characters, the
masked (non-tab/non-space replaced by space) first `startCol` characters of
the context; when the context has at most `startCol` characters only the
label-length spaces are emitted.  The padding appears in the rendered unit
between the indentation and the underline. -/
theorem mkPadding_spec :
    (∀ (lineStr context : String) (startCol : Int),
        (context.length : Int) > startCol →
        mkPadding lineStr context startCol =
          spacesOf lineStr.length ++ maskContext (context.take startCol.toNat))
    ∧ (∀ (lineStr context : String) (startCol : Int),
        (context.length : Int) ≤ startCol →
        mkPadding lineStr context startCol = spacesOf lineStr.length)
    ∧ (∀ (mainFile : String) (m : FlowMessage) (loc : FlowLoc) (c : String),
        m.loc = some loc → m.context = some c →
        prettyPrintMessage mainFile m =
          indentationOf m.indent ++ lineStrOf loc.start.line ++ c ++ "\n"
            ++ indentationOf m.indent
            ++ mkPadding (lineStrOf loc.start.line) c (loc.start.column - 1)
            ++ underlineOf loc ++ " " ++ m.descr
            ++ (if sourceEqMainFile loc.source mainFile then ""
                else ". See: " ++ sourceStr loc.source ++ ":"
                  ++ toString loc.start.line)) := by
  refine ⟨?_, ?_, fun mainFile m loc c hl hc =>
    prettyPrintMessage_with_context mainFile m loc c hl hc⟩
  · intro lineStr context startCol h
    unfold mkPadding
    rw [if_pos h]
  · intro lineStr context startCol h
    unfold mkPadding
    rw [if_neg (not_lt.mpr h), String.append_empty]

/-- Witness for C8: applies `mkPadding_spec` to a concrete label, context and
start column, discharging the strict-length hypothesis. -/
theorem mkPadding_spec_witness :
    mkPadding "  1: " "abc" 2 =
      spacesOf ("  1: ".length) ++ maskContext ("abc".take (Int.toNat 2)) :=
  mkPadding_spec.1 "  1: " "abc" 2 (by decide)
